import Mathlib

/-!
Verification of the SambaNova provider adapter
(`crates/goose/src/providers/sambanova.rs`).

The adapter is a thin configuration-driven HTTP client.  Pure code
(`parse_custom_headers`, the constants, `metadata`) is embedded directly.
Stateful or effectful code (`from_env`, `post`, `complete`) is embedded as
explicit functions over an abstract configuration store, an abstract
transport, and abstract OpenAI-compatible format helpers, mirroring the
Rust control flow statement by statement.  Types belonging to the crate
but not present in the sources at hand (`Config`, `ProviderError`,
`Usage`, `Message`, ...) are modelled from the specification, as noted in
their doc comments.
-/

namespace Goose

/-! ## String helpers

Rust's `str::split`, `str::splitn` and `str::trim` modelled on character
lists.  `split` on a separator returns one (possibly empty) piece per
separator-delimited segment, with the empty string splitting to one empty
piece, exactly as Rust's `split` does.  `trim` removes leading and
trailing whitespace (`Char.isWhitespace`). -/

/-- Rust `s.split(sep)` on character lists: `[] ↦ [[]]`, separators
delimit (possibly empty) segments. -/
def splitList (sep : Char) : List Char → List (List Char)
  | [] => [[]]
  | c :: cs =>
    if c = sep then [] :: splitList sep cs
    else
      match splitList sep cs with
      | [] => [[c]]
      | h :: t => (c :: h) :: t

/-- Rust `s.split(sep)` as a `String` operation. -/
def splitStr (sep : Char) (s : String) : List String :=
  (splitList sep s.toList).map (fun cs => String.mk cs)

/-- Rust `s.trim()` on a character list: drop whitespace from both ends. -/
def trimChars (cs : List Char) : List Char :=
  ((cs.dropWhile Char.isWhitespace).reverse.dropWhile Char.isWhitespace).reverse

/-- Rust `s.trim().to_string()`. -/
def trimStr (s : String) : String :=
  String.mk (trimChars s.toList)

/-- Rust `s.splitn(2, sep)`: at most two pieces, the second piece is
everything after the first separator (further separators kept).  When the
separator does not occur the result is the single piece `[s]`. -/
def splitn2 (sep : Char) (s : String) : List String :=
  if s.toList.contains sep then
    [String.mk (s.toList.takeWhile (fun c => c ≠ sep)),
     String.mk ((s.toList.dropWhile (fun c => c ≠ sep)).tail)]
  else [s]

/-! ## parse_custom_headers (sambanova.rs lines 150-159) -/

/-- The body of the `filter_map` closure in `parse_custom_headers`:
`splitn(2, '=')`, then `key = parts.next().map(trim)?` and
`value = parts.next().map(trim)?`.  The key is always present; the value
is present exactly when the piece contains `'='`. -/
def parse_header_pair (header : String) : Option (String × String) :=
  (((splitn2 '=' header).get? 0).map trimStr).bind (fun key =>
    (((splitn2 '=' header).get? 1).map trimStr).map (fun value => (key, value)))

/-- Insert-with-overwrite on an association list: the semantics of
`HashMap::insert` used by `collect::<HashMap<_, _>>()`, which inserts the
iterator's pairs in order, later keys overwriting earlier ones. -/
def hmInsert (m : List (String × String)) (k v : String) :
    List (String × String) :=
  if m.any (fun p => p.1 = k) then
    m.map (fun p => if p.1 = k then (k, v) else p)
  else m ++ [(k, v)]

/-- `parse_custom_headers` (sambanova.rs lines 150-159): split on commas,
`filter_map` each piece through `parse_header_pair`, and collect into a
`HashMap`, here modelled as an association list built by
insert-with-overwrite. -/
def parse_custom_headers (s : String) : List (String × String) :=
  ((splitStr ',' s).filterMap parse_header_pair).foldl
    (fun m kv => hmInsert m kv.1 kv.2) []

/-! ## Claim theorems on parse_custom_headers -/

/-- C2: `parse_custom_headers` splits on commas and splits each piece on
the first `'='`; a piece yields a pair exactly when it contains an `'='`
(pieces lacking one are silently dropped); in particular
`parse_custom_headers "a=1,b=2"` is the map `a ↦ 1, b ↦ 2` and
`parse_custom_headers "a=1,bad,c=3"` is the map `a ↦ 1, c ↦ 3`. -/
theorem parse_custom_headers_keeps_iff_eq :
    (∀ piece : String,
        (parse_header_pair piece).isSome = piece.toList.contains '=')
    ∧ parse_custom_headers "a=1,b=2" = [("a", "1"), ("b", "2")]
    ∧ parse_custom_headers "a=1,bad,c=3" = [("a", "1"), ("c", "3")] := by
  refine ⟨fun piece => ?_, by decide, by decide⟩
  by_cases h : '=' ∈ piece.data
  · simp [parse_header_pair, splitn2, String.toList, h]
  · simp [parse_header_pair, splitn2, String.toList, h]

/-- C10: each retained key and value is the whitespace-trim of the piece's
part before, respectively after, the first `'='` (so `" a = 1 "` yields
the pair `("a", "1")`), and a piece whose value part is empty, such as
`"a="`, is retained with the empty string as value rather than dropped. -/
theorem parse_custom_headers_trims_and_keeps_empty_value :
    (∀ piece : String,
        parse_header_pair piece =
          if piece.toList.contains '=' then
            some (trimStr (String.mk (piece.toList.takeWhile (fun c => c ≠ '='))),
                  trimStr (String.mk ((piece.toList.dropWhile (fun c => c ≠ '=')).tail)))
          else none)
    ∧ parse_custom_headers " a = 1 " = [("a", "1")]
    ∧ parse_custom_headers "a=" = [("a", "")] := by
  refine ⟨fun piece => ?_, by decide, by decide⟩
  by_cases h : '=' ∈ piece.data
  · simp [parse_header_pair, splitn2, String.toList, h]
  · simp [parse_header_pair, splitn2, String.toList, h]

/-! ## Data model

Types owned by the crate but whose defining modules are outside the
sources at hand are modelled from the specification, as marked. -/

/-- Constant `SAMBANOVA_DEFAULT_MODEL` (sambanova.rs line 16). -/
def SAMBANOVA_DEFAULT_MODEL : String := "Meta-Llama-3.1-405B-Instruct"

/-- Constant `SAMBANOVA_KNOWN_MODELS` (sambanova.rs line 17). -/
def SAMBANOVA_KNOWN_MODELS : List String :=
  ["Meta-Llama-3.1-405B-Instruct", "Meta-Llama-3.3-70B-Instruct"]

/-- Constant `SAMBANOVA_DOC_URL` (sambanova.rs line 19). -/
def SAMBANOVA_DOC_URL : String := "https://api.sambanova.ai"

/-- Modelled from the spec: a JSON value (`serde_json::Value`, external
crate), used for request payloads and decoded response bodies.  The
adapter only passes such values between the abstract helpers, so the
constructors are never inspected here. -/
inductive Value where
  | null : Value
  | bool : Bool → Value
  | num : Int → Value
  | str : String → Value
  | arr : List Value → Value
  | obj : List (String × Value) → Value

/-- Modelled from the spec (section 3): `ModelConfig` from `crate::model`
(not under src/) — an immutable value holding the model name (optional
generation parameters omitted; the adapter never reads them). -/
structure ModelConfig where
  model_name : String
deriving DecidableEq

/-- `ModelConfig::new` (crate::model, not under src/): wrap a model name. -/
def ModelConfig.new (name : String) : ModelConfig := ⟨name⟩

/-- Modelled from the spec (section 3): `Message` from `crate::message`
(not under src/) — an ordered sequence of role-tagged content blocks,
here an opaque role plus opaque block payloads; the adapter only passes
messages to the abstract request encoder. -/
structure Message where
  role : String
  content : List String
deriving DecidableEq

/-- Modelled from the spec (section 3): `Tool` from `mcp_core` (not under
src/) — a name, a description and a JSON-schema-shaped parameter spec. -/
structure Tool where
  name : String
  description : String
  input_schema : Value

/-- Modelled from the spec (sections 3 and 7): `Usage` from
`providers::base` (not under src/) — token counts, each optional and
defaulting to absent/zero when the remote API omits them. -/
structure Usage where
  input_tokens : Option Nat
  output_tokens : Option Nat
  total_tokens : Option Nat
deriving DecidableEq

/-- `Usage::default()`: the zero-valued usage substituted by the
soft-fail policy (every counter absent, accounted as zero). -/
def Usage.default : Usage := ⟨none, none, none⟩

/-- Modelled from the spec: `ProviderUsage` from `providers::base` (not
under src/) — the effective model name echoed by the vendor together with
the usage counters. -/
structure ProviderUsage where
  model : String
  usage : Usage
deriving DecidableEq

/-- `ProviderUsage::new` (providers::base, not under src/). -/
def ProviderUsage.new (model : String) (usage : Usage) : ProviderUsage :=
  ⟨model, usage⟩

/-- Modelled from the spec (section 7): the call-time error taxonomy of
`ProviderError` (`providers::errors`, not under src/): `ConfigError`
(malformed configuration at call time), `RequestFailed`
(network/transport failure or non-success HTTP status), `UsageError`
(usage-field decode failure), and the remaining response-decode
failures. -/
inductive ProviderError where
  | ConfigError : String → ProviderError
  | RequestFailed : String → ProviderError
  | UsageError : String → ProviderError
  | ResponseParseError : String → ProviderError
deriving DecidableEq

/-- Modelled from the spec (section 7): the construction-time error of
`from_env` — `MissingCredential` when a required secret is absent. -/
inductive ConfigError where
  | MissingCredential : String → ConfigError
  | NotFound : String → ConfigError
deriving DecidableEq

/-- Modelled from the spec (section 9): the global configuration store
(`crate::config::Config`, not under src/) abstracted as an injected
capability `get(key) -> value | NotFound`, with a separate namespace for
secrets as the code distinguishes `get_param` from `get_secret`. -/
structure Config where
  params : String → Option String
  secrets : String → Option String

/-- Modelled from the spec: `Config::get_param` (crate::config, not under
src/) — a present key yields its value, an absent key an error. -/
def Config.get_param (c : Config) (key : String) : Except ConfigError String :=
  match c.params key with
  | some v => Except.ok v
  | none => Except.error (ConfigError.NotFound key)

/-- Modelled from the spec (section 7): `Config::get_secret`
(crate::config, not under src/) — a present secret yields its value, an
absent required secret is a `MissingCredential` failure. -/
def Config.get_secret (c : Config) (key : String) : Except ConfigError String :=
  match c.secrets key with
  | some v => Except.ok v
  | none => Except.error (ConfigError.MissingCredential key)

/-- The `SambanovaProvider` struct (sambanova.rs lines 21-30).  The
`reqwest::Client` field is modelled by the one datum the constructor
configures on it: the request timeout in seconds. -/
structure SambanovaProvider where
  timeout_secs : Nat
  host : String
  base_path : String
  api_key : String
  model : ModelConfig
  custom_headers : Option (List (String × String))
deriving DecidableEq

/-- `SambanovaProvider::from_env` (sambanova.rs lines 40-66), over the
abstract configuration store: the API key is required; host, base path
and timeout fall back to their defaults when absent (`unwrap_or_else` /
`unwrap_or`); the custom-header secret is optional (`ok().map(...)`).
The typed read `get_param::<u64>("SAMBANOVA_TIMEOUT")` is modelled by
parsing the stored string with `String.toNat?`, any failure falling back
to 600.  Client construction (`Client::builder().build()`) is modelled as
always succeeding, per the spec (section 4.1): it only configures the
timeout. -/
def SambanovaProvider.from_env (config : Config) (model : ModelConfig) :
    Except ConfigError SambanovaProvider := do
  let api_key ← config.get_secret "SAMBANOVA_API_KEY"
  let host := (config.get_param "SAMBANOVA_HOST").toOption.getD
    "https://api.sambanova.ai"
  let base_path := (config.get_param "SAMBANOVA_BASE_PATH").toOption.getD "v1"
  let custom_headers := (config.get_secret "SAMBANOVA_CUSTOM_HEADERS").toOption.map
    parse_custom_headers
  let timeout_secs := ((config.get_param "SAMBANOVA_TIMEOUT").toOption.bind
    String.toNat?).getD 600
  Except.ok
    { timeout_secs := timeout_secs, host := host, base_path := base_path,
      api_key := api_key, model := model, custom_headers := custom_headers }

/-- Modelled from the spec (section 4.1): one entry of the metadata's
configuration-key list (`ConfigKey` from `providers::base`, not under
src/), with per-key flags required, secret, and default-value-or-none,
in the argument order of `ConfigKey::new(name, required, secret,
default)`. -/
structure ConfigKey where
  name : String
  required : Bool
  secret : Bool
  default : Option String
deriving DecidableEq

/-- `ConfigKey::new` (providers::base, not under src/). -/
def ConfigKey.new (name : String) (required : Bool) (secret : Bool)
    (default : Option String) : ConfigKey :=
  ⟨name, required, secret, default⟩

/-- Modelled from the spec (section 4.1): `ProviderMetadata` from
`providers::base` (not under src/) — provider identifier, display name,
description, default model, known models, documentation URL, and the
configuration-key list, in the argument order of
`ProviderMetadata::new`. -/
structure ProviderMetadata where
  name : String
  display_name : String
  description : String
  default_model : String
  known_models : List String
  model_doc_link : String
  config_keys : List ConfigKey
deriving DecidableEq

/-- `ProviderMetadata::new` (providers::base, not under src/). -/
def ProviderMetadata.new (name : String) (display_name : String)
    (description : String) (default_model : String)
    (known_models : List String) (model_doc_link : String)
    (config_keys : List ConfigKey) : ProviderMetadata :=
  ⟨name, display_name, description, default_model, known_models,
   model_doc_link, config_keys⟩

/-- `Provider::metadata` for `SambanovaProvider` (sambanova.rs lines
94-113).  `SAMBANOVA_KNOWN_MODELS.iter().map(to_string).collect()` is the
identity on the modelled string list. -/
def SambanovaProvider.metadata : ProviderMetadata :=
  ProviderMetadata.new
    "sambanova"
    "SambaNova"
    "Meta-Llama-3.1-405B-Instruct model available via SambaNova's API"
    SAMBANOVA_DEFAULT_MODEL
    (SAMBANOVA_KNOWN_MODELS.map (fun s => s))
    SAMBANOVA_DOC_URL
    [ConfigKey.new "SAMBANOVA_API_KEY" true true none,
     ConfigKey.new "SAMBANOVA_HOST" true false (some "https://api.sambanova.ai"),
     ConfigKey.new "SAMBANOVA_BASE_PATH" true false (some "v1"),
     ConfigKey.new "SAMBANOVA_CUSTOM_HEADERS" false true none,
     ConfigKey.new "SAMBANOVA_TIMEOUT" false false (some "600")]

/-- `Provider::get_model_config` for `SambanovaProvider` (sambanova.rs
lines 115-117): return a clone of the stored model config. -/
def SambanovaProvider.get_model_config (self : SambanovaProvider) : ModelConfig :=
  self.model

/-- `Default for SambanovaProvider` (sambanova.rs lines 32-37):
`from_env(ModelConfig::new(metadata().default_model))`, over the abstract
configuration store.  The Rust `expect` panic on failure is modelled by
keeping the `Except`. -/
def SambanovaProvider.defaultFromEnv (config : Config) :
    Except ConfigError SambanovaProvider :=
  SambanovaProvider.from_env config
    (ModelConfig.new SambanovaProvider.metadata.default_model)

/-- Modelled from the spec: the pieces of `post` supplied by external
crates (`url::Url::parse`, `Url::join`) and by `providers::utils` (not
under src/): sending the request and running
`handle_response_openai_compat` on the reply.  Each is an arbitrary pure
function, so theorems about `post` and `complete` quantify over every
possible behaviour of these dependencies; a deterministic stub transport
is one concrete instance. -/
structure Transport where
  url_parse : String → Except String String
  url_join : String → String → Except String String
  send : String → List (String × String) → Value → Except ProviderError Value

/-- `SambanovaProvider::post` (sambanova.rs lines 68-89): parse the host
URL (`Invalid base URL` on failure), join the base path (`Failed to
construct endpoint URL` on failure) — both failures mapped to
`ProviderError::RequestFailed` — then send with the `Authorization:
Bearer` header followed by the custom headers, and hand the reply to the
OpenAI-compatible status/body handler. -/
def SambanovaProvider.post (t : Transport) (self : SambanovaProvider)
    (payload : Value) : Except ProviderError Value := do
  let base_url ←
    match t.url_parse self.host with
    | Except.ok u => Except.ok u
    | Except.error e =>
        Except.error (ProviderError.RequestFailed ("Invalid base URL: " ++ e))
  let url ←
    match t.url_join base_url self.base_path with
    | Except.ok u => Except.ok u
    | Except.error e =>
        Except.error
          (ProviderError.RequestFailed ("Failed to construct endpoint URL: " ++ e))
  let headers := ("Authorization", "Bearer " ++ self.api_key) ::
    (match self.custom_headers with
     | some hs => hs
     | none => [])
  t.send url headers payload

/-- Modelled from the spec (section 4.1, steps 1, 3, 4, 5): the shared
OpenAI-compatible format helpers from `providers::formats::openai` and
`providers::utils` (not under src/): the request encoder
`create_request`, the response decoder `response_to_message`, the usage
extractor `get_usage`, and the effective-model extractor `get_model`.
Each is an arbitrary pure function: theorems about `complete` quantify
over every possible behaviour of these helpers. -/
structure OpenAiFormat where
  create_request : ModelConfig → String → List Message → List Tool →
    Except ProviderError Value
  response_to_message : Value → Except ProviderError Message
  get_usage : Value → Except ProviderError Usage
  get_model : Value → String

/-- `Provider::complete` for `SambanovaProvider` (sambanova.rs lines
123-147): encode the request, `post` it, decode the assistant message,
then match on `get_usage`: success keeps the usage, a `UsageError` is
downgraded to `Usage::default()` (after a debug log, a pure no-op here),
any other error is returned; finally pair the message with
`ProviderUsage::new(get_model(response), usage)`.  The
`emit_debug_trace` side effect never alters the returned value (spec
section 4.1, step 6) and is omitted. -/
def SambanovaProvider.complete (fmt : OpenAiFormat) (t : Transport)
    (self : SambanovaProvider) (system : String) (messages : List Message)
    (tools : List Tool) : Except ProviderError (Message × ProviderUsage) := do
  let payload ← fmt.create_request self.model system messages tools
  let response ← self.post t payload
  let message ← fmt.response_to_message response
  let usage ←
    match fmt.get_usage response with
    | Except.ok usage => Except.ok usage
    | Except.error (ProviderError.UsageError _) => Except.ok Usage.default
    | Except.error e => Except.error e
  let model := fmt.get_model response
  Except.ok (message, ProviderUsage.new model usage)

/-- One `complete` call as a state transformer on the adapter: the Rust
method takes `&self` (a shared, immutable borrow) and no field has
interior mutability, so the adapter value after the call is the adapter
value before it.  Sequential composition of calls threads this state. -/
def SambanovaProvider.complete_call (fmt : OpenAiFormat) (t : Transport)
    (self : SambanovaProvider) (system : String) (messages : List Message)
    (tools : List Tool) :
    Except ProviderError (Message × ProviderUsage) × SambanovaProvider :=
  (SambanovaProvider.complete fmt t self system messages tools, self)

/-! ## Helper lemmas and concrete instances -/

/-- Unfolding lemma: the `.ok()`-conversion of a parameter read is the
raw store lookup. -/
theorem Config.get_param_toOption (c : Config) (k : String) :
    (c.get_param k).toOption = c.params k := by
  unfold Config.get_param
  cases c.params k <;> rfl

/-- Unfolding lemma: the `.ok()`-conversion of a secret read is the raw
store lookup. -/
theorem Config.get_secret_toOption (c : Config) (k : String) :
    (c.get_secret k).toOption = c.secrets k := by
  unfold Config.get_secret
  cases c.secrets k <;> rfl

/-- Computation rule: binding a success runs the continuation. -/
theorem bind_ok_eq {α β ε : Type} (a : α) (f : α → Except ε β) :
    (Except.ok a >>= f : Except ε β) = f a := rfl

/-- Computation rule: binding a failure short-circuits. -/
theorem bind_error_eq {α β ε : Type} (e : ε) (f : α → Except ε β) :
    ((Except.error e : Except ε α) >>= f : Except ε β) = Except.error e := rfl

/-- Helper: a successful `from_env` stores the caller's model config
untouched. -/
theorem from_env_model_eq (config : Config) (model : ModelConfig)
    (p : SambanovaProvider)
    (h : SambanovaProvider.from_env config model = Except.ok p) :
    p.model = model := by
  unfold SambanovaProvider.from_env at h
  cases hs : config.secrets "SAMBANOVA_API_KEY" with
  | none => simp [Config.get_secret, hs, bind_error_eq] at h
  | some v =>
      simp [Config.get_secret, hs, bind_ok_eq] at h
      subst h
      rfl

/-- A configuration store with no parameters and no secrets. -/
def emptyConfig : Config := ⟨fun _ => none, fun _ => none⟩

/-- A configuration store holding only the API key secret. -/
def apiKeyOnlyConfig : Config :=
  ⟨fun _ => none,
   fun k => if k = "SAMBANOVA_API_KEY" then some "sk-test" else none⟩

/-- A stub provider value used to instantiate call-time theorems. -/
def stubProvider : SambanovaProvider :=
  { timeout_secs := 600, host := "https://api.sambanova.ai",
    base_path := "v1", api_key := "k",
    model := ModelConfig.new "Meta-Llama-3.1-405B-Instruct",
    custom_headers := none }

/-- A provider whose configured host is not a valid URL. -/
def cexProvider : SambanovaProvider :=
  { timeout_secs := 600, host := "not a url", base_path := "v1",
    api_key := "k", model := ModelConfig.new "m", custom_headers := none }

/-- A transport whose URL parser rejects every host, with the message
the `url` crate produces for a relative string. -/
def badUrlTransport : Transport :=
  ⟨fun _ => Except.error "relative URL without a base",
   fun _ _ => Except.error "cannot be a base",
   fun _ _ payload => Except.ok payload⟩

/-- A transport that parses any host but fails to join the base path. -/
def joinFailTransport : Transport :=
  ⟨fun h => Except.ok h,
   fun _ _ => Except.error "cannot be a base",
   fun _ _ payload => Except.ok payload⟩

/-- A deterministic stub transport: parsing and joining succeed and the
reply to every request is the fixed body `Value.null`. -/
def stubTransport : Transport :=
  ⟨fun h => Except.ok h,
   fun u p => Except.ok (u ++ "/" ++ p),
   fun _ _ _ => Except.ok Value.null⟩

/-- The decoded assistant message produced by the stub format. -/
def stubMessage : Message := ⟨"assistant", ["hello"]⟩

/-- A deterministic stub of the OpenAI-compatible helpers whose body has
no usage field: `get_usage` fails with `UsageError`. -/
def stubFmt : OpenAiFormat :=
  ⟨fun _ _ _ _ => Except.ok Value.null,
   fun _ => Except.ok stubMessage,
   fun _ => Except.error (ProviderError.UsageError "no usage field"),
   fun _ => "Meta-Llama-3.1-405B-Instruct"⟩

/-- Discriminator: is a `post` outcome a `ConfigError`? -/
def isConfigErrorResult : Except ProviderError Value → Bool
  | Except.error (ProviderError.ConfigError _) => true
  | _ => false

/-- Lookup of a metadata configuration key by name. -/
def findConfigKey (name : String) : Option ConfigKey :=
  SambanovaProvider.metadata.config_keys.find? (fun k => k.name == name)

/-! ## Claim theorems -/

/-- C1: when request encoding, the POST and message decoding succeed,
`complete` substitutes `Usage::default()` and returns success whenever
usage extraction fails with a `UsageError` (the vendor omitted the usage
fields), and propagates the error, failing the call, whenever usage
extraction fails with any other error. -/
theorem complete_usage_soft_fail (fmt : OpenAiFormat) (t : Transport)
    (self : SambanovaProvider) (system : String) (messages : List Message)
    (tools : List Tool) (payload response : Value) (msg : Message)
    (hreq : fmt.create_request self.model system messages tools = Except.ok payload)
    (hpost : SambanovaProvider.post t self payload = Except.ok response)
    (hmsg : fmt.response_to_message response = Except.ok msg) :
    (∀ e, fmt.get_usage response = Except.error (ProviderError.UsageError e) →
        SambanovaProvider.complete fmt t self system messages tools
          = Except.ok (msg, ProviderUsage.new (fmt.get_model response) Usage.default))
    ∧ (∀ err, fmt.get_usage response = Except.error err →
        (∀ s, err ≠ ProviderError.UsageError s) →
        SambanovaProvider.complete fmt t self system messages tools
          = Except.error err) := by
  constructor
  · intro e he
    simp [SambanovaProvider.complete, hreq, hpost, hmsg, he, bind_ok_eq]
  · intro err herr hne
    cases err with
    | UsageError s => exact absurd rfl (hne s)
    | ConfigError s =>
        simp [SambanovaProvider.complete, hreq, hpost, hmsg, herr, bind_ok_eq,
          bind_error_eq]
    | RequestFailed s =>
        simp [SambanovaProvider.complete, hreq, hpost, hmsg, herr, bind_ok_eq,
          bind_error_eq]
    | ResponseParseError s =>
        simp [SambanovaProvider.complete, hreq, hpost, hmsg, herr, bind_ok_eq,
          bind_error_eq]

/-- C1 witness: against the deterministic stub whose body lacks a usage
field, `complete` succeeds with the decoded message and the zero-valued
usage. -/
theorem complete_usage_soft_fail_witness :
    SambanovaProvider.complete stubFmt stubTransport stubProvider "sys" [] []
      = Except.ok (stubMessage,
          ProviderUsage.new "Meta-Llama-3.1-405B-Instruct" Usage.default) :=
  (complete_usage_soft_fail stubFmt stubTransport stubProvider "sys" [] []
      Value.null Value.null stubMessage rfl rfl rfl).1 "no usage field" rfl

/-- C3: when the `SAMBANOVA_API_KEY` secret is absent from the
configuration store, `from_env` fails with `MissingCredential` and never
returns an adapter. -/
theorem from_env_missing_credential (config : Config) (model : ModelConfig)
    (h : config.secrets "SAMBANOVA_API_KEY" = none) :
    SambanovaProvider.from_env config model
      = Except.error (ConfigError.MissingCredential "SAMBANOVA_API_KEY") := by
  simp [SambanovaProvider.from_env, Config.get_secret, h, bind_error_eq]

/-- C3 witness: on the empty configuration store, `from_env` fails with
`MissingCredential "SAMBANOVA_API_KEY"`. -/
theorem from_env_missing_credential_witness :
    SambanovaProvider.from_env emptyConfig (ModelConfig.new "m")
      = Except.error (ConfigError.MissingCredential "SAMBANOVA_API_KEY") :=
  from_env_missing_credential emptyConfig (ModelConfig.new "m") rfl

/-- C4 counterexample: on a provider whose configured host does not parse
as a URL, `post` fails with `RequestFailed ("Invalid base URL: ...")` —
not with the `ConfigError` the claim requires. -/
theorem post_invalid_url_counterexample :
    SambanovaProvider.post badUrlTransport cexProvider Value.null
      = Except.error (ProviderError.RequestFailed
          "Invalid base URL: relative URL without a base")
    ∧ isConfigErrorResult
        (SambanovaProvider.post badUrlTransport cexProvider Value.null)
      = false :=
  ⟨rfl, rfl⟩

/-- C4 (amended): when the configured host or base path does not form a
valid URL, the failure surfaces at call time, in `post`, as a
`RequestFailed` error (messages `Invalid base URL: ...` and
`Failed to construct endpoint URL: ...`) — the same constructor used for
network/transport failures, not a distinct `ConfigError`. -/
theorem post_invalid_url_request_failed (t : Transport)
    (self : SambanovaProvider) (payload : Value) (e : String) :
    (t.url_parse self.host = Except.error e →
        SambanovaProvider.post t self payload
          = Except.error (ProviderError.RequestFailed ("Invalid base URL: " ++ e)))
    ∧ (∀ u, t.url_parse self.host = Except.ok u →
        t.url_join u self.base_path = Except.error e →
        SambanovaProvider.post t self payload
          = Except.error (ProviderError.RequestFailed
              ("Failed to construct endpoint URL: " ++ e))) := by
  constructor
  · intro h
    simp [SambanovaProvider.post, h, bind_error_eq]
  · intro u hp hj
    simp [SambanovaProvider.post, hp, hj, bind_ok_eq, bind_error_eq]

/-- C4 witness: with a transport whose join step rejects the base path,
`post` fails with `RequestFailed ("Failed to construct endpoint URL:
...")`. -/
theorem post_invalid_url_request_failed_witness :
    SambanovaProvider.post joinFailTransport cexProvider Value.null
      = Except.error (ProviderError.RequestFailed
          "Failed to construct endpoint URL: cannot be a base") :=
  (post_invalid_url_request_failed joinFailTransport cexProvider Value.null
      "cannot be a base").2 "not a url" rfl rfl

/-- C5 counterexample: the metadata flags `SAMBANOVA_HOST` and
`SAMBANOVA_BASE_PATH` as required (`required = true`), contradicting the
claim that only `SAMBANOVA_API_KEY` is flagged required. -/
theorem metadata_host_flagged_required :
    (findConfigKey "SAMBANOVA_HOST").map ConfigKey.required = some true
    ∧ (findConfigKey "SAMBANOVA_BASE_PATH").map ConfigKey.required = some true :=
  ⟨rfl, rfl⟩

/-- C5 (amended): the metadata's configuration-key list flags
`SAMBANOVA_API_KEY`, `SAMBANOVA_HOST` and `SAMBANOVA_BASE_PATH` as
required and `SAMBANOVA_CUSTOM_HEADERS` and `SAMBANOVA_TIMEOUT` as
optional, with defaults none, `https://api.sambanova.ai`, `v1`, none and
`600` respectively, and flags exactly the API key and the custom headers
as secret. -/
theorem metadata_config_keys_flags :
    SambanovaProvider.metadata.config_keys.map ConfigKey.name
      = ["SAMBANOVA_API_KEY", "SAMBANOVA_HOST", "SAMBANOVA_BASE_PATH",
         "SAMBANOVA_CUSTOM_HEADERS", "SAMBANOVA_TIMEOUT"]
    ∧ (SambanovaProvider.metadata.config_keys.filter
        (fun k => k.required)).map ConfigKey.name
      = ["SAMBANOVA_API_KEY", "SAMBANOVA_HOST", "SAMBANOVA_BASE_PATH"]
    ∧ (SambanovaProvider.metadata.config_keys.filter
        (fun k => k.secret)).map ConfigKey.name
      = ["SAMBANOVA_API_KEY", "SAMBANOVA_CUSTOM_HEADERS"]
    ∧ SambanovaProvider.metadata.config_keys.map ConfigKey.default
      = [none, some "https://api.sambanova.ai", some "v1", none, some "600"] :=
  ⟨rfl, rfl, rfl, rfl⟩

/-- C6: when the API key secret is present, `from_env` succeeds and
builds the adapter from the store's values where present and from the
defaults otherwise: host `https://api.sambanova.ai`, base path `v1`,
timeout 600 seconds, and no custom headers when the custom-header blob is
absent. -/
theorem from_env_success_defaults (config : Config) (model : ModelConfig)
    (key : String) (h : config.secrets "SAMBANOVA_API_KEY" = some key) :
    SambanovaProvider.from_env config model = Except.ok
      { timeout_secs :=
          ((config.params "SAMBANOVA_TIMEOUT").bind String.toNat?).getD 600,
        host := (config.params "SAMBANOVA_HOST").getD "https://api.sambanova.ai",
        base_path := (config.params "SAMBANOVA_BASE_PATH").getD "v1",
        api_key := key,
        model := model,
        custom_headers :=
          (config.secrets "SAMBANOVA_CUSTOM_HEADERS").map parse_custom_headers } := by
  have hk : config.get_secret "SAMBANOVA_API_KEY" = Except.ok key := by
    simp [Config.get_secret, h]
  simp [SambanovaProvider.from_env, hk, Config.get_param_toOption,
    Config.get_secret_toOption, bind_ok_eq]

/-- C6 witness: on a store holding only the API key, `from_env` succeeds
with every default: host `https://api.sambanova.ai`, base path `v1`,
timeout 600, no custom headers. -/
theorem from_env_success_defaults_witness :
    SambanovaProvider.from_env apiKeyOnlyConfig (ModelConfig.new "m")
      = Except.ok
          { timeout_secs := 600, host := "https://api.sambanova.ai",
            base_path := "v1", api_key := "sk-test",
            model := ModelConfig.new "m", custom_headers := none } :=
  (from_env_success_defaults apiKeyOnlyConfig (ModelConfig.new "m") "sk-test"
      (by decide)).trans (by rfl)

/-- C7: the known-models list, both as the constant
`SAMBANOVA_KNOWN_MODELS` and as the metadata's model list, is exactly
`Meta-Llama-3.1-405B-Instruct` then `Meta-Llama-3.3-70B-Instruct`, of
length 2. -/
theorem known_models_spec :
    SAMBANOVA_KNOWN_MODELS
      = ["Meta-Llama-3.1-405B-Instruct", "Meta-Llama-3.3-70B-Instruct"]
    ∧ SambanovaProvider.metadata.known_models
      = ["Meta-Llama-3.1-405B-Instruct", "Meta-Llama-3.3-70B-Instruct"]
    ∧ SAMBANOVA_KNOWN_MODELS.length = 2 :=
  ⟨rfl, rfl, rfl⟩

/-- C8: an adapter built by default construction (when construction
succeeds) reports `get_model_config().model_name` equal to the published
default model `Meta-Llama-3.1-405B-Instruct`. -/
theorem default_model_config (config : Config) (p : SambanovaProvider)
    (h : SambanovaProvider.defaultFromEnv config = Except.ok p) :
    p.get_model_config.model_name = SAMBANOVA_DEFAULT_MODEL := by
  have hm := from_env_model_eq config
    (ModelConfig.new SambanovaProvider.metadata.default_model) p h
  unfold SambanovaProvider.get_model_config
  rw [hm]
  rfl

/-- C8 witness: default construction over the store holding only the API
key yields an adapter whose model config names the default model. -/
theorem default_model_config_witness :
    SambanovaProvider.defaultFromEnv apiKeyOnlyConfig
      = Except.ok
          { timeout_secs := 600, host := "https://api.sambanova.ai",
            base_path := "v1", api_key := "sk-test",
            model := ModelConfig.new "Meta-Llama-3.1-405B-Instruct",
            custom_headers := none }
    ∧ (SambanovaProvider.mk 600 "https://api.sambanova.ai" "v1" "sk-test"
        (ModelConfig.new "Meta-Llama-3.1-405B-Instruct")
        none).get_model_config.model_name = SAMBANOVA_DEFAULT_MODEL :=
  ⟨by rfl,
   default_model_config apiKeyOnlyConfig
     (SambanovaProvider.mk 600 "https://api.sambanova.ai" "v1" "sk-test"
       (ModelConfig.new "Meta-Llama-3.1-405B-Instruct") none) (by rfl)⟩

/-- C9: `complete` is a pure function of its inputs and the adapter's
construction-time configuration: the adapter value after a call is the
adapter value before it (the method borrows `self` immutably and no field
has interior mutability), so two sequential calls with identical system
prompt, messages and tools against the same deterministic transport
produce identical results. -/
theorem complete_no_hidden_state (fmt : OpenAiFormat) (t : Transport)
    (self : SambanovaProvider) (system : String) (messages : List Message)
    (tools : List Tool) :
    (SambanovaProvider.complete_call fmt t self system messages tools).2 = self
    ∧ SambanovaProvider.complete_call fmt t
        (SambanovaProvider.complete_call fmt t self system messages tools).2
        system messages tools
      = SambanovaProvider.complete_call fmt t self system messages tools :=
  ⟨rfl, rfl⟩

end Goose
